import Mathlib

/-!
Verification of the crash classification and report synthesis engine of the
`casr` repository (files `src/execution_class.rs` and `src/bin/casr-san.rs`)
against its natural-language specification.

The Rust code is shallowly embedded: Rust `&str` becomes `String`,
`Result<T, Error>` becomes the `Res` type below (with an extra constructor
modelling a Rust panic where the code calls `.unwrap()`), vectors of lines
become `List String`, and the two regular expressions of `casr-san.rs` are
embedded as executable matchers on `List Char` (the regex engine's unanchored
leftmost search becomes a scan over all suffixes; the `\d+` and `\s*`
sub-patterns become maximal-munch runs, which is exact here because the
characters that may follow each run are disjoint from the run's class).
`\d` and `\s` are modelled as ASCII digits and ASCII whitespace.
-/

/-- Rust `Result` with decidable equality: `ok` is `Ok`, `err` is `Err`. -/
inductive Res (ε : Type) (α : Type) where
  | ok (a : α) : Res ε α
  | err (e : ε) : Res ε α
  deriving DecidableEq

namespace Res

/-- Whether a `Res` value is `ok` (Rust `Result::is_ok`). -/
def isOk {ε α : Type} : Res ε α → Bool
  | .ok _ => true
  | .err _ => false

end Res

/-- ASCII decimal digit, the model of the regex class `\d`. -/
def isDigitChar (c : Char) : Bool :=
  '0' ≤ c && c ≤ '9'

/-- ASCII whitespace, the model of the regex class `\s`. -/
def isWsChar (c : Char) : Bool :=
  c = ' ' || c = '\t' || c = '\n' || c = '\r'

/-- Consume the literal `lit` from the front of `cs`: `some rest` when
`cs = lit ++ rest`, `none` otherwise. -/
def expectLit : List Char → List Char → Option (List Char)
  | [], cs => some cs
  | _ :: _, [] => none
  | l :: ls, c :: cs => if c = l then expectLit ls cs else none

/-- Whether `needle` occurs as a contiguous sublist of `hay`
(Rust `str::contains` with a literal pattern). -/
def hasSubList (needle : List Char) : List Char → Bool
  | [] => (expectLit needle []).isSome
  | c :: t => (expectLit needle (c :: t)).isSome || hasSubList needle t

/-- Rust `haystack.contains(needle)` for string literals. -/
def substrIn (needle hay : String) : Bool :=
  hasSubList needle.toList hay.toList

/-- Split a character list at each line feed, keeping empty pieces
(`split('\n')` yields one piece more than there are separators). -/
def splitNl : List Char → List (List Char)
  | [] => [[]]
  | c :: t =>
    match splitNl t with
    | [] => [[]]
    | piece :: rest => if c = '\n' then [] :: piece :: rest else (c :: piece) :: rest

/-- Rust `text.split('\n')`: split on each line feed, keeping empty pieces. -/
def splitLines (s : String) : List String :=
  (splitNl s.toList).map (fun cs => String.mk cs)

/-- Rust `str::trim`: remove leading and trailing whitespace from a line. -/
def trimLine (s : String) : String :=
  String.mk (((s.toList.dropWhile isWsChar).reverse.dropWhile isWsChar).reverse)

/-- Rust `Iterator::position`: index of the first element satisfying `p`. -/
def firstIdx? {α : Type} (p : α → Bool) : List α → Option Nat
  | [] => none
  | a :: t => if p a then some 0 else (firstIdx? p t).map (· + 1)

/-- Rust `Iterator::rposition`: index of the last element satisfying `p`. -/
def lastIdx? {α : Type} (p : α → Bool) : List α → Option Nat
  | [] => none
  | a :: t =>
    match lastIdx? p t with
    | some i => some (i + 1)
    | none => if p a then some 0 else none

/-- Severity-class record (`ExecutionClass` of `execution_class.rs`): severity
tier, short name used as the lookup key, short human label and long
explanation. -/
structure ExecutionClass where
  severity : String
  short_description : String
  description : String
  explanation : String
  deriving DecidableEq

/-- The error type of the classification engine (`error::Error::Casr`). -/
inductive CasrError where
  | casr (msg : String) : CasrError
  deriving DecidableEq

/-- The taxonomy table `CLASSES` of `execution_class.rs`: 71 records
`(severity, short_name, description, explanation)`, copied verbatim. -/
def CLASSES : List (String × String × String × String) := [
  ("EXPLOITABLE", "SegFaultOnPc", "Segmentation fault on program counter", "The target tried to access data at an address that matches the program counter. This likely indicates that the program counter contents are tainted and can be controlled by an attacker."),
  ("EXPLOITABLE", "ReturnAv", "Access violation during return instruction", "The target crashed on a return instruction, which likely indicates stack corruption."),
  ("EXPLOITABLE", "BranchAv", "Access violation during branch instruction", "The target crashed on a branch instruction, which may indicate that the control flow is tainted."),
  ("EXPLOITABLE", "CallAv", "Access violation during call instruction", "The target crashed on a call instruction, which may indicate that the control flow is tainted."),
  ("EXPLOITABLE", "DestAv", "Access violation on destination operand", "The target crashed on an access violation at an address matching the destination operand of the instruction. This likely indicates a write access violation, which means the attacker may control the write address and/or value."),
  ("EXPLOITABLE", "BranchAvTainted", "Access violation during branch instruction from tainted source", "The target crashed on loading from memory (SourceAv). After taint tracking, target operand of branch instruction could be tainted."),
  ("EXPLOITABLE", "CallAvTainted", "Access violation during call instruction from tainted source", "The target crashed on loading from memory (SourceAv). After taint tracking, target operand of call instruction could be tainted."),
  ("EXPLOITABLE", "DestAvTainted", "Access violation on destination operand from tainted source", "The target crashed on loading from memory (SourceAv). After taint tracking, addres operand of memory store instruction could be tainted. This likely indicates a write access violation, which means the attacker may control the write address and/or value."),
  ("NOT_EXPLOITABLE", "AbortSignal", "Abort signal", "The target is stopped on a SIGABRT. SIGABRTs are often generated by libc and compiled check-code to indicate potentially exploitable conditions."),
  ("NOT_EXPLOITABLE", "TrapSignal", "Trap signal", "The target is stopped on a SIGTRAP. The SIGTRAP signal is sent to a process when an exception (or trap) occurs: a condition that a debugger has requested to be informed of – for example, when a particular function is executed, or when a particular variable changes value. "),
  ("NOT_EXPLOITABLE", "AccessViolation", "Access violation", "The target crashed due to an access violation but there is not enough additional information available to determine exploitability. Manual analysis is needed."),
  ("NOT_EXPLOITABLE", "SourceAv", "Access violation on source operand", "The target crashed on an access violation at an address matching the source operand of the current instruction. This likely indicates a read access violation."),
  ("PROBABLY_EXPLOITABLE", "BadInstruction", "Bad instruction", "The target tried to execute a malformed or privileged instruction. This may indicate that the control flow is tainted."),
  ("PROBABLY_EXPLOITABLE", "SegFaultOnPcNearNull", "Segmentation fault on program counter near NULL", "The target tried to access data at an address that matches the program counter. This may indicate that the program counter contents are tainted, however, it may also indicate a simple NULL dereference."),
  ("PROBABLY_EXPLOITABLE", "BranchAvNearNull", "Access violation near NULL during branch instruction", "The target crashed on a branch instruction, which may indicate that the control flow is tainted. However, there is a chance it could be a NULL dereference."),
  ("PROBABLY_EXPLOITABLE", "CallAvNearNull", "Access violation near NULL during call instruction", "The target crashed on a call instruction, which may indicate that the control flow is tainted. However, there is a chance it could be a NULL dereference."),
  ("PROBABLY_EXPLOITABLE", "DestAvNearNull", "Access violation near NULL on destination operand", "The target crashed on an access violation at an address matching the destination operand of the instruction. This likely indicates a write access violation, which means the attacker may control write address and/or value. However, it there is a chance it could be a NULL dereference."),
  ("NOT_EXPLOITABLE", "SourceAvNearNull", "Access violation near NULL on source operand", "The target crashed on an access violation at an address matching the source operand of the current instruction. This likely indicates a read access violation, which may mean the application crashed on a simple NULL dereference to data structure that has no immediate effect on control of the processor."),
  ("PROBABLY_EXPLOITABLE", "StackGuard", "Stack buffer overflow", "The target program is aborted due to stack cookie overwrite."),
  ("NOT_EXPLOITABLE", "SafeFunctionCheck", "Safe function check guard", "The target program is aborted due to safe function check guard: _chk()."),
  ("PROBABLY_EXPLOITABLE", "HeapError", "Heap error", "The target program is aborted due to error produced by heap allocator functions."),
  ("NOT_EXPLOITABLE", "FPE", "Arithmetic exception", "The target crashed due to arithmetic floating point exception."),
  ("NOT_EXPLOITABLE", "StackOverflow", "Stack overflow", "The target crashed on an access violation where the faulting instruction's mnemonic and the stack pointer seem to indicate a stack overflow."),
  ("UNDEFINED", "Undefined", "Undefined class", "There is no execution class for this type of exception."),
  ("NOT_EXPLOITABLE", "double-free", "Deallocation of freed memory", "The target crashed while trying to deallocate already freed memory."),
  ("NOT_EXPLOITABLE", "bad-free", "Invalid memory deallocation", "The target crashed on attempting free on address which was not malloc()-ed."),
  ("NOT_EXPLOITABLE", "alloc-dealloc-mismatch", "Invalid use of alloc/dealloc functions", "Mismatch between allocation and deallocation APIs."),
  ("NOT_EXPLOITABLE", "unknown-crash", "Sanitizer check fail", "Invalid memory access."),
  ("NOT_EXPLOITABLE", "heap-buffer-overflow(read)", "Heap buffer overflow", "The target reads data past the end, or before the beginning, of the intended heap buffer."),
  ("PROBABLY_EXPLOITABLE", "heap-buffer-overflow", "Heap buffer overflow", "The target attempts to read or write data past the end, or before the beginning, of the intended heap buffer."),
  ("EXPLOITABLE", "heap-buffer-overflow(write)", "Heap buffer overflow", "The target writes data past the end, or before the beginning, of the intended heap buffer."),
  ("NOT_EXPLOITABLE", "global-buffer-overflow(read)", "Global buffer overflow", "The target reads data past the end, or before the beginning, of the intended global buffer."),
  ("PROBABLY_EXPLOITABLE", "global-buffer-overflow", "Global buffer overflow", "The target attempts to read or write data past the end, or before the beginning, of the intended global buffer."),
  ("EXPLOITABLE", "global-buffer-overflow(write)", "Global buffer overflow", "The target writes data past the end, or before the beginning, of the intended global buffer."),
  ("NOT_EXPLOITABLE", "stack-use-after-scope(read)", "Use of out-of-scope stack memory", "The target crashed when reading from a stack address outside the lexical scope of a variable's lifetime."),
  ("PROBABLY_EXPLOITABLE", "stack-use-after-scope", "Use of out-of-scope stack memory", "The target crashed when using a stack address outside the lexical scope of a variable's lifetime."),
  ("EXPLOITABLE", "stack-use-after-scope(write)", "Use of out-of-scope stack memory", "The target crashed when writing on a stack address outside the lexical scope of a variable's lifetime."),
  ("PROBABLY_EXPLOITABLE", "use-after-poison", "Using poisoned memory", "The target crashed on trying to use the memory that was previously poisoned."),
  ("NOT_EXPLOITABLE", "stack-use-after-return(read)", "Use of stack memory after return", "The target crashed when reading from a stack memory of a returned function."),
  ("PROBABLY_EXPLOITABLE", "stack-use-after-return", "Use of stack memory after return", "The target crashed when using a stack memory of a returned function."),
  ("EXPLOITABLE", "stack-use-after-return(write)", "Use of stack memory after return", "The target crashed when writing to a stack memory of a returned function."),
  ("NOT_EXPLOITABLE", "stack-buffer-overflow(read)", "Stack buffer overflow", "The target reads data past the end, or before the beginning, of the intended stack buffer."),
  ("PROBABLY_EXPLOITABLE", "stack-buffer-overflow", "Stack buffer overflow", "The target attempts to read or write data past the end, or before the beginning, of the intended stack buffer."),
  ("EXPLOITABLE", "stack-buffer-overflow(write)", "Stack buffer overflow", "The target writes data past the end, or before the beginning, of the intended stack buffer."),
  ("NOT_EXPLOITABLE", "initialization-order-fiasco", "Bad initialization order", "Initializer for a global variable accesses dynamically initialized global from another translation unit, which is not yet initialized."),
  ("NOT_EXPLOITABLE", "stack-buffer-underflow(read)", "Stack buffer underflow", "The target reads from a buffer using buffer access mechanisms such as indexes or pointers that reference memory locations prior to the targeted buffer."),
  ("PROBABLY_EXPLOITABLE", "stack-buffer-underflow", "Stack buffer underflow", "The target is using buffer with an index or pointer that references a memory location prior to the beginning of the buffer."),
  ("EXPLOITABLE", "stack-buffer-underflow(write)", "Stack buffer underflow", "The target writes to a buffer using an index or pointer that references a memory location prior to the beginning of the buffer."),
  ("NOT_EXPLOITABLE", "heap-use-after-free(read)", "Use of deallocated memory", "The target crashed when reading from memory after it has been freed."),
  ("PROBABLY_EXPLOITABLE", "heap-use-after-free", "Use of deallocated memory", "The target crashed when using memory after it has been freed."),
  ("EXPLOITABLE", "heap-use-after-free(write)", "Use of deallocated memory", "The target crashed when writing to memory after it has been freed."),
  ("NOT_EXPLOITABLE", "container-overflow(read)", "Container overflow", "The target crashed when reading from memory inside the allocated heap region but outside of the current container bounds."),
  ("PROBABLY_EXPLOITABLE", "container-overflow", "Container overflow", "The target crashed when using memory inside the allocated heap region but outside of the current container bounds."),
  ("EXPLOITABLE", "container-overflow(write)", "Container overflow", "The target crashed when writing to memory inside the allocated heap region but outside of the current container bounds."),
  ("NOT_EXPLOITABLE", "new-delete-type-mismatch", "Invalid use of new/delete functions", "Deallocation size different from allocation size."),
  ("NOT_EXPLOITABLE", "bad-malloc_usable_size", "Bad function use", "Invalid argument to malloc_usable_size."),
  ("EXPLOITABLE", "param-overlap", "Overlapping memory ranges", "Call to function disallowing overlapping memory ranges."),
  ("PROBABLY_EXPLOITABLE", "negative-size-param", "Use of negative size", "Negative size used when accessing memory."),
  ("NOT_EXPLOITABLE", "odr-violation", "Multiple symbol definition", "Symbol defined in multiple translation units."),
  ("NOT_EXPLOITABLE", "memory-leaks", "Memory leaks", "The target does not sufficiently track and release allocated memory after it has been used, which slowly consumes remaining memory."),
  ("PROBABLY_EXPLOITABLE", "calloc-overflow", "Calloc parameters overflow", "Overflow in calloc parameters."),
  ("PROBABLY_EXPLOITABLE", "reallocarray-overflow", "Realloc parameters overflow", "Overflow in realloc parameters."),
  ("PROBABLY_EXPLOITABLE", "pvalloc-overflow", "Pvalloc parameters overflow", "Overflow in pvalloc parameters."),
  ("NOT_EXPLOITABLE", "invalid-allocation-alignment", "Invalid alignment", "Invalid allocation alignment."),
  ("NOT_EXPLOITABLE", "invalid-aligned-alloc-alignment", "Invalid alignment", "Invalid alignment requested in aligned_alloc."),
  ("NOT_EXPLOITABLE", "invalid-posix-memalign-alignment", "Invalid alignment", "Invalid alignment requested in posix_memalign."),
  ("NOT_EXPLOITABLE", "allocation-size-too-big", "Allocation size too big", "Requested allocation size exceeds maximum supported size."),
  ("NOT_EXPLOITABLE", "out-of-memory", "Memory limit exceeded", "The target has exceeded the memory limit."),
  ("NOT_EXPLOITABLE", "fuzz target exited", "Fuzz target exited", "Fuzz target exited."),
  ("NOT_EXPLOITABLE", "timeout", "Target timeout expired", "Timeout after several seconds."),
  ("PROBABLY_EXPLOITABLE", "overwrites-const-input", "Attempt to overwrite constant input", "Fuzz target overwrites its constant input.")
]

namespace ExecutionClass

/-- `ExecutionClass::new`: build a record from a table tuple. -/
def new (class4 : String × String × String × String) : ExecutionClass :=
  { severity := class4.1
    short_description := class4.2.1
    description := class4.2.2.1
    explanation := class4.2.2.2 }

/-- The short name (second component) of a table tuple. -/
def shortNameOf (class4 : String × String × String × String) : String :=
  class4.2.1

/-- The scan of `ExecutionClass::find` over a rest of the table: first tuple
whose second component equals `short_desc` wins. -/
def findIn (short_desc : String) : List (String × String × String × String) → Res CasrError ExecutionClass
  | [] => .err (.casr ("Couldn't find class " ++ short_desc ++ " by name."))
  | c :: rest => if c.2.1 = short_desc then .ok (new c) else findIn short_desc rest

/-- `ExecutionClass::find`: exact lookup of a short name in `CLASSES`. -/
def find (short_desc : String) : Res CasrError ExecutionClass :=
  findIn short_desc CLASSES

/-- `ExecutionClass::san_find(short_desc, rw, near_null)`: derived lookup.
The Rust `match` over `(rw.unwrap_or("UNDEF"), near_null)` and over the
qualifier string is rendered as an `if` chain; the string patterns are
literals, so first-match `match` and the `if` chain coincide. -/
def san_find (short_desc : String) (rw : Option String) (near_null : Bool) :
    Res CasrError ExecutionClass :=
  if short_desc = "SEGV" then
    let q := rw.getD "UNDEF"
    if q = "READ" then
      if near_null then find "SourceAvNearNull" else find "SourceAv"
    else if q = "WRITE" then
      if near_null then find "DestAvNearNull" else find "DestAv"
    else find "AccessViolation"
  else if short_desc = "stack-overflow" then find "StackOverflow"
  else if short_desc = "deadly" then find "AbortSignal"
  else
    let q := rw.getD "UNDEF"
    let pat :=
      if q = "READ" then short_desc ++ "(read)"
      else if q = "WRITE" then short_desc ++ "(write)"
      else short_desc
    match find pat with
    | .ok cls => .ok cls
    | .err _ => find short_desc

/-- `Default for ExecutionClass`: the default record, copied verbatim from
`execution_class.rs` (note its `explanation` text). -/
def defaultClass : ExecutionClass :=
  { severity := "UNDEFINED"
    short_description := "Undefined"
    description := "Undefined class"
    explanation := "The is no execution class for this type of exception" }

end ExecutionClass

/-- Whether `cs` starts with one of the three tool names followed by a colon:
the alternation `(LeakSanitizer|AddressSanitizer|libFuzzer):` of the
report-start regex of `casr-san.rs`. -/
def toolColon (cs : List Char) : Bool :=
  (expectLit ("LeakSanitizer:".toList) cs).isSome ||
  (expectLit ("AddressSanitizer:".toList) cs).isSome ||
  (expectLit ("libFuzzer:".toList) cs).isSome

/-- The tail `\s*ERROR: (LeakSanitizer|AddressSanitizer|libFuzzer):` of the
report-start regex, matched at the front of `cs`. The maximal whitespace run
is exact because no whitespace character can begin `ERROR: `. -/
def afterDelim (cs : List Char) : Bool :=
  match expectLit ("ERROR: ".toList) (cs.dropWhile isWsChar) with
  | some rest => toolColon rest
  | none => false

/-- The tail `\d*==\s*ERROR: …:` of the report-start regex at the front of
`cs`: zero or more further digits, the closing `==`, then `afterDelim`. The
maximal digit run is exact because `=` is not a digit. -/
def digitsEqEq : List Char → Bool
  | [] => false
  | c :: rest =>
    if c = '=' then
      match rest with
      | c2 :: r2 => c2 = '=' && afterDelim r2
      | [] => false
    else isDigitChar c && digitsEqEq rest

/-- The whole report-start regex `==\d+==\s*ERROR: …:` matched at the front of
`cs`: `==`, at least one digit, then `digitsEqEq`. -/
def matchHere : List Char → Bool
  | c1 :: c2 :: c3 :: rest => c1 = '=' && c2 = '=' && isDigitChar c3 && digitsEqEq rest
  | _ => false

/-- Unanchored search (`Regex::is_match`): the report-start regex matches at
some position of `cs`. -/
def hasRasan : List Char → Bool
  | [] => false
  | c :: t => matchHere (c :: t) || hasRasan t

/-- `rasan_start.is_match(line)` of `casr-san.rs`: the line marks the start of
a sanitizer report. -/
def rasanLine (line : String) : Bool :=
  hasRasan line.toList

/-- Modelled from the claim's words, for comparison with `rasanLine`: a
process id of TWO or more digits between `==` delimiters, immediately
followed by `ERROR: ` (no intervening whitespace), then a tool name, then a
colon. -/
def claimDigitsEqEq : List Char → Bool
  | [] => false
  | c :: rest =>
    if c = '=' then
      match rest with
      | c2 :: r2 =>
        c2 = '=' &&
          (match expectLit ("ERROR: ".toList) r2 with
           | some r3 => toolColon r3
           | none => false)
      | [] => false
    else isDigitChar c && claimDigitsEqEq rest

/-- Modelled from the claim's words: the claimed pattern matched at the front
of `cs` (`==`, two or more digits, `==`, immediately `ERROR: `, tool, colon). -/
def claimMatchHere : List Char → Bool
  | c1 :: c2 :: c3 :: c4 :: rest =>
    c1 = '=' && c2 = '=' && isDigitChar c3 && isDigitChar c4 && claimDigitsEqEq rest
  | _ => false

/-- Modelled from the claim's words: unanchored search for the claimed
pattern. -/
def claimHasRasan : List Char → Bool
  | [] => false
  | c :: t => claimMatchHere (c :: t) || claimHasRasan t

/-- Modelled from the claim's words: the claimed report-start line pattern. -/
def claimLine (line : String) : Bool :=
  claimHasRasan line.toList

/-- The summary regex `SUMMARY: *(AddressSanitizer|libFuzzer): (\S+)` of
`casr-san.rs`, matched at the front of `cs`; returns the two captures
(tool name, check name). The maximal space and non-whitespace runs are exact:
no space can begin a tool name, and nothing follows the last capture. -/
def summaryAt (cs : List Char) : Option (String × String) :=
  match expectLit ("SUMMARY:".toList) cs with
  | none => none
  | some r1 =>
    let r2 := r1.dropWhile (· = ' ')
    match expectLit ("AddressSanitizer: ".toList) r2 with
    | some r3 =>
      let tok := r3.takeWhile (fun c => !isWsChar c)
      if tok.isEmpty then none else some ("AddressSanitizer", String.mk tok)
    | none =>
      match expectLit ("libFuzzer: ".toList) r2 with
      | some r3 =>
        let tok := r3.takeWhile (fun c => !isWsChar c)
        if tok.isEmpty then none else some ("libFuzzer", String.mk tok)
      | none => none

/-- Unanchored leftmost search for the summary regex. -/
def summarySearch : List Char → Option (String × String)
  | [] => none
  | c :: t =>
    match summaryAt (c :: t) with
    | some r => some r
    | none => summarySearch t

/-- Rust `Iterator::find_map`. -/
def findMap? {α β : Type} (f : α → Option β) : List α → Option β
  | [] => none
  | a :: t =>
    match f a with
    | some b => some b
    | none => findMap? f t

/-- The access regex `(READ|WRITE|ACCESS)` of `casr-san.rs` at the front of
`cs`: the capture at this position, alternatives tried in order. -/
def accessAt (cs : List Char) : Option String :=
  if (expectLit ("READ".toList) cs).isSome then some "READ"
  else if (expectLit ("WRITE".toList) cs).isSome then some "WRITE"
  else if (expectLit ("ACCESS".toList) cs).isSome then some "ACCESS"
  else none

/-- Unanchored leftmost search for the access regex. -/
def accessSearch : List Char → Option String
  | [] => none
  | c :: t =>
    match accessAt (c :: t) with
    | some r => some r
    | none => accessSearch t

/-- `raccess.captures(second_line)` of `casr-san.rs`: the first
READ/WRITE/ACCESS token of a line, if any. -/
def findAccess (line : String) : Option String :=
  accessSearch line.toList

/-- The fields of the Rust `CrashReport` aggregate that the analysed claims
mention (identity and environment metadata, crash line and source excerpt are
out of the claims' scope). `CrashReport::new` leaves every field at its
default; in particular the classification starts as the UNDEFINED class. -/
structure CrashReport where
  execution_class : ExecutionClass := ExecutionClass.defaultClass
  asan_report : List String := []
  stacktrace : List String := []
  proc_maps : List String := []
  deriving DecidableEq

/-- Hard-failure outcomes of `casr-san.rs`'s `main`: `failure` is an
`anyhow::bail!` with its message, `panicked` a Rust panic from `.unwrap()`
on an `Err` or `None` value. -/
inductive DriverError where
  | failure (msg : String) : DriverError
  | panicked (msg : String) : DriverError
  deriving DecidableEq

/-- `ExecutionClass::find(name).unwrap()`: an `Err` result panics. -/
def unwrapFind (name : String) : Res DriverError ExecutionClass :=
  match ExecutionClass.find name with
  | .ok c => .ok c
  | .err (.casr m) => .err (.panicked m)

/-- Lines 152-185 of `casr-san.rs`: classification on the sanitizer path.
`asan` is the report excerpt (never empty when this runs, hence `headD`).
The source calls `san_find` with the check name and access qualifier; the
near-null flag is not supplied at this call site and is modelled as `false`
(for every name it could take here other than `SEGV` the flag is ignored).
A failed derivation leaves the classification at its default. -/
def classifyAsan (asan : List String) : Res DriverError ExecutionClass :=
  if substrIn "LeakSanitizer" (asan.headD "") then unwrapFind "memory-leaks"
  else
    match findMap? (fun s => summarySearch s.toList) asan with
    | none => .ok ExecutionClass.defaultClass
    | some (tool, santype) =>
      if tool = "libFuzzer" then
        match ExecutionClass.san_find santype none false with
        | .ok cls => .ok cls
        | .err _ => .ok ExecutionClass.defaultClass
      else
        let memAccess :=
          match asan.get? 1 with
          | some second => findAccess second
          | none => none
        match ExecutionClass.san_find santype memAccess false with
        | .ok cls => .ok cls
        | .err _ => .ok ExecutionClass.defaultClass

/-- Lines 187-207 of `casr-san.rs`: stack-trace extraction from the
sanitizer excerpt. Find the first line containing ` #0 `, then the first
empty line from there on; the trace is the lines between them, each trimmed
(`trimLine` models Rust `str::trim`). -/
def extractSanStacktrace (asan : List String) : Res DriverError (List String) :=
  match firstIdx? (fun x => substrIn " #0 " x) asan with
  | none => .err (.failure "Couldn't find stack trace in sanitizer's report")
  | some first =>
    match firstIdx? (fun v => v = "") (asan.drop first) with
    | none => .err (.failure "Couldn't find stack trace end in sanitizer's report")
    | some last => .ok (((asan.drop first).take last).map trimLine)

/-- Lines 149-207 of `casr-san.rs`: the sanitizer path, entered with the
index `start` of the first report-start line. The report end is one past the
last non-empty line (`rposition`, whose `.unwrap()` panic on an all-empty
text is modelled, as is the slice panic on a reversed range; neither is
reachable from `runDriver` since the start line is non-empty). -/
def sanitizerPath (lines : List String) (start : Nat) : Res DriverError CrashReport :=
  match lastIdx? (fun s => !(s = "")) lines with
  | none => .err (.panicked "called Option::unwrap() on a None value")
  | some lastNonEmpty =>
    let endIdx := lastNonEmpty + 1
    if endIdx < start then .err (.panicked "slice index starts at greater index than end")
    else
      let asan := (lines.drop start).take (endIdx - start)
      match classifyAsan asan with
      | .err e => .err e
      | .ok cls =>
        match extractSanStacktrace asan with
        | .err e => .err e
        | .ok st =>
          .ok { execution_class := cls, asan_report := asan, stacktrace := st, proc_maps := [] }

/-- Lines 211-225 of `casr-san.rs`: classification from the termination
signal. Signals 4, 6 and 11 look up fixed class names with `.unwrap()`
(a missing name panics); any other signal keeps the default class. -/
def signalClass (signal : Int) : Res DriverError ExecutionClass :=
  if signal = 4 then unwrapFind "BadInstruction"
  else if signal = 6 then unwrapFind "AbortSignal"
  else if signal = 11 then unwrapFind "SEGV"
  else .ok ExecutionClass.defaultClass

/-- Lines 210-244 of `casr-san.rs`: the signal path. The external debugger's
two output blobs are inputs: the backtrace blob is split into lines
verbatim, the memory-map blob is split into lines with its first 4 lines
dropped. -/
def signalPath (signal : Int) (gdbBt gdbMaps : String) : Res DriverError CrashReport :=
  match signalClass signal with
  | .err e => .err e
  | .ok cls =>
    .ok { execution_class := cls, asan_report := [],
          stacktrace := splitLines gdbBt, proc_maps := (splitLines gdbMaps).drop 4 }

/-- Lines 208-248 of `casr-san.rs`: the path taken when no sanitizer report
is found: the signal path when the process died on a signal, the
no-crash-detected hard failure otherwise. -/
def fallbackPath (signal : Option Int) (gdbBt gdbMaps : String) : Res DriverError CrashReport :=
  match signal with
  | some sig => signalPath sig gdbBt gdbMaps
  | none => .err (.failure "Program terminated (no crash)")

/-- The out-of-memory marker checked at line 128 of `casr-san.rs`. -/
def oomMarker : String := "AddressSanitizer: hard rss limit exhausted"

/-- Lines 127-248 of `casr-san.rs`: the pipeline from the captured stderr
text and termination signal (plus the debugger's two blobs, consumed only on
the signal path) to the crash report handed to the serialization boundary,
or a hard failure. Crash-line resolution (best-effort, out of the claims'
scope) does not change the fields modelled here. -/
def runDriver (stderr : String) (signal : Option Int) (gdbBt gdbMaps : String) :
    Res DriverError CrashReport :=
  if substrIn oomMarker stderr then
    .err (.failure "Out of memory: hard_rss_limit_mb exhausted")
  else
    let lines := splitLines stderr
    match firstIdx? rasanLine lines with
    | some start => sanitizerPath lines start
    | none => fallbackPath signal gdbBt gdbMaps

/-- `CrashReport::new`: the empty report, every field at its default. -/
def CrashReport.new : CrashReport := {}

/-- The `SourceAv` record of the taxonomy table. -/
def sourceAvEntry : ExecutionClass :=
  ExecutionClass.new ("NOT_EXPLOITABLE", "SourceAv", "Access violation on source operand", "The target crashed on an access violation at an address matching the source operand of the current instruction. This likely indicates a read access violation.")

/-- The `SourceAvNearNull` record of the taxonomy table. -/
def sourceAvNearNullEntry : ExecutionClass :=
  ExecutionClass.new ("NOT_EXPLOITABLE", "SourceAvNearNull", "Access violation near NULL on source operand", "The target crashed on an access violation at an address matching the source operand of the current instruction. This likely indicates a read access violation, which may mean the application crashed on a simple NULL dereference to data structure that has no immediate effect on control of the processor.")

/-- The `DestAv` record of the taxonomy table. -/
def destAvEntry : ExecutionClass :=
  ExecutionClass.new ("EXPLOITABLE", "DestAv", "Access violation on destination operand", "The target crashed on an access violation at an address matching the destination operand of the instruction. This likely indicates a write access violation, which means the attacker may control the write address and/or value.")

/-- The `DestAvNearNull` record of the taxonomy table. -/
def destAvNearNullEntry : ExecutionClass :=
  ExecutionClass.new ("PROBABLY_EXPLOITABLE", "DestAvNearNull", "Access violation near NULL on destination operand", "The target crashed on an access violation at an address matching the destination operand of the instruction. This likely indicates a write access violation, which means the attacker may control write address and/or value. However, it there is a chance it could be a NULL dereference.")

/-- The `AccessViolation` record of the taxonomy table. -/
def accessViolationEntry : ExecutionClass :=
  ExecutionClass.new ("NOT_EXPLOITABLE", "AccessViolation", "Access violation", "The target crashed due to an access violation but there is not enough additional information available to determine exploitability. Manual analysis is needed.")

/-- The `Undefined` record of the taxonomy table. -/
def undefinedEntry : ExecutionClass :=
  ExecutionClass.new ("UNDEFINED", "Undefined", "Undefined class", "There is no execution class for this type of exception.")

/-- The `BadInstruction` record of the taxonomy table. -/
def badInstructionEntry : ExecutionClass :=
  ExecutionClass.new ("PROBABLY_EXPLOITABLE", "BadInstruction", "Bad instruction", "The target tried to execute a malformed or privileged instruction. This may indicate that the control flow is tainted.")

/-- The `heap-buffer-overflow(write)` record of the taxonomy table. -/
def hboWriteEntry : ExecutionClass :=
  ExecutionClass.new ("EXPLOITABLE", "heap-buffer-overflow(write)", "Heap buffer overflow", "The target writes data past the end, or before the beginning, of the intended heap buffer.")

set_option maxRecDepth 100000

/-- C3 counterexample: the default classification is NOT field-for-field
equal to the taxonomy table's record for the short name Undefined — the
exact lookup of "Undefined" succeeds, but the default record differs from
it (in the explanation field). -/
theorem c3_default_differs_from_table :
    ExecutionClass.find "Undefined" = .ok undefinedEntry ∧
    CrashReport.new.execution_class = ExecutionClass.defaultClass ∧
    ExecutionClass.defaultClass ≠ undefinedEntry := by
  decide

/-- C3 amended: the crash report's classification defaults to the default
`ExecutionClass`, which agrees with the taxonomy table's Undefined record in
severity, short name and description, but its explanation text differs from
the table entry's (a typo variant without the trailing period). -/
theorem c3_default_matches_undefined_except_explanation :
    ExecutionClass.find "Undefined" = .ok undefinedEntry ∧
    CrashReport.new.execution_class = ExecutionClass.defaultClass ∧
    ExecutionClass.defaultClass.severity = undefinedEntry.severity ∧
    ExecutionClass.defaultClass.short_description = undefinedEntry.short_description ∧
    ExecutionClass.defaultClass.description = undefinedEntry.description ∧
    ExecutionClass.defaultClass.explanation ≠ undefinedEntry.explanation := by
  decide

/-- C4: for the name SEGV, `san_find` combines the access qualifier
(defaulting when absent) and the near-null flag exactly as the fixed 5-way
table: (READ, not near-null) gives SourceAv, (READ, near-null) gives
SourceAvNearNull, (WRITE, not near-null) gives DestAv, (WRITE, near-null)
gives DestAvNearNull, and every other qualifier gives AccessViolation. -/
theorem c4_segv_five_way_table :
    ExecutionClass.san_find "SEGV" (some "READ") false = .ok sourceAvEntry ∧
    ExecutionClass.san_find "SEGV" (some "READ") true = .ok sourceAvNearNullEntry ∧
    ExecutionClass.san_find "SEGV" (some "WRITE") false = .ok destAvEntry ∧
    ExecutionClass.san_find "SEGV" (some "WRITE") true = .ok destAvNearNullEntry ∧
    ∀ rw nn, rw ≠ some "READ" → rw ≠ some "WRITE" →
      ExecutionClass.san_find "SEGV" rw nn = .ok accessViolationEntry := by
  refine ⟨by decide, by decide, by decide, by decide, ?_⟩
  intro rw nn h1 h2
  cases rw with
  | none => cases nn <;> decide
  | some s =>
    have hs1 : ¬(s = "READ") := fun h => h1 (by rw [h])
    have hs2 : ¬(s = "WRITE") := fun h => h2 (by rw [h])
    have step : ExecutionClass.san_find "SEGV" (some s) nn =
        ExecutionClass.find "AccessViolation" := by
      unfold ExecutionClass.san_find
      simp [hs1, hs2]
    rw [step]
    decide

/-- C4 witness: instantiating the general branch at qualifier ACCESS. -/
theorem c4_witness :
    ExecutionClass.san_find "SEGV" (some "ACCESS") true = .ok accessViolationEntry :=
  c4_segv_five_way_table.2.2.2.2 (some "ACCESS") true (by decide) (by decide)

/-- C10: for every name other than SEGV, `san_find` ignores the near-null
flag: the results for near-null true and false are equal. -/
theorem c10_near_null_only_affects_segv (name : String) (rw : Option String)
    (h : ¬(name = "SEGV")) :
    ExecutionClass.san_find name rw true = ExecutionClass.san_find name rw false := by
  unfold ExecutionClass.san_find
  rw [if_neg h, if_neg h]

/-- C10 witness: a concrete non-SEGV instantiation. -/
theorem c10_witness :
    ExecutionClass.san_find "heap-buffer-overflow" (some "READ") true =
      ExecutionClass.san_find "heap-buffer-overflow" (some "READ") false :=
  c10_near_null_only_affects_segv "heap-buffer-overflow" (some "READ") (by decide)

/-- C1: evaluation at the failing input. With stderr free of any
sanitizer-report marker and termination signal 11, the pipeline does not
reach SEGV derivation: it panics unwrapping the failed exact lookup of
"SEGV", a name absent from the taxonomy table — even though `san_find`'s
dedicated SEGV rule (the intended derivation) resolves fine. -/
theorem c1_signal11_unwrap_panics :
    runDriver "" (some 11) "" "" = .err (.panicked "Couldn't find class SEGV by name.") ∧
    ExecutionClass.find "SEGV" = .err (.casr "Couldn't find class SEGV by name.") ∧
    ExecutionClass.san_find "SEGV" (some "WRITE") false = .ok destAvEntry := by
  decide

/-- A lookup scan over table rows none of which carries the sought short
name fails with the ClassNotFound error. -/
theorem findIn_err_of_absent (n : String) :
    ∀ l : List (String × String × String × String),
      (∀ t ∈ l, ExecutionClass.shortNameOf t ≠ n) →
      ExecutionClass.findIn n l = .err (.casr ("Couldn't find class " ++ n ++ " by name."))
  | [], _ => rfl
  | c :: rest, h => by
    have hc : ¬(c.2.1 = n) := h c (List.mem_cons_self c rest)
    unfold ExecutionClass.findIn
    rw [if_neg hc]
    exact findIn_err_of_absent n rest (fun t ht => h t (List.mem_cons_of_mem c ht))

/-- C9: the taxonomy table has 71 records with pairwise distinct short
names; exact lookup of any short name present in the table returns exactly
that record; lookup is deterministic (idempotent); and lookup of a name
carried by no record fails with the ClassNotFound error. -/
theorem c9_find_by_name_exact :
    CLASSES.length = 71 ∧
    (CLASSES.map ExecutionClass.shortNameOf).Nodup ∧
    (∀ t ∈ CLASSES, ExecutionClass.find (ExecutionClass.shortNameOf t) = .ok (ExecutionClass.new t)) ∧
    (∀ n r₁ r₂, ExecutionClass.find n = .ok r₁ → ExecutionClass.find n = .ok r₂ → r₁ = r₂) ∧
    (∀ n, (∀ t ∈ CLASSES, ExecutionClass.shortNameOf t ≠ n) →
      ExecutionClass.find n = .err (.casr ("Couldn't find class " ++ n ++ " by name."))) := by
  refine ⟨rfl, by decide, by decide, ?_, ?_⟩
  · intro n r₁ r₂ h1 h2
    rw [h1] at h2
    injection h2
  · intro n h
    exact findIn_err_of_absent n CLASSES h

/-- C9 witness: exact lookup of the DestAv short name returns the DestAv
record. -/
theorem c9_witness : ExecutionClass.find "DestAv" = .ok destAvEntry :=
  c9_find_by_name_exact.2.2.1
    ("EXPLOITABLE", "DestAv", "Access violation on destination operand", "The target crashed on an access violation at an address matching the destination operand of the instruction. This likely indicates a write access violation, which means the attacker may control the write address and/or value.")
    (by decide)

/-- `firstIdx?` finds nothing on a list where the predicate never holds. -/
theorem firstIdx?_eq_none {α : Type} (p : α → Bool) :
    ∀ l : List α, (∀ a ∈ l, p a = false) → firstIdx? p l = none
  | [], _ => rfl
  | a :: t, h => by
    unfold firstIdx?
    rw [h a (List.mem_cons_self a t), firstIdx?_eq_none p t (fun b hb => h b (List.mem_cons_of_mem a hb))]
    rfl

/-- The stderr text of the C7 counterexample: the out-of-memory marker with
no sanitizer-report start line. -/
def oomOnlyStderr : String := "AddressSanitizer: hard rss limit exhausted"

/-- C7 counterexample: a run whose stderr contains no sanitizer-report
marker and whose process exited without a signal, on which the pipeline
fails with the out-of-memory hard error, not with NoCrashDetected. -/
theorem c7_oom_precedes_no_crash :
    (∀ l ∈ splitLines oomOnlyStderr, rasanLine l = false) ∧
    runDriver oomOnlyStderr none "" "" =
      .err (.failure "Out of memory: hard_rss_limit_mb exhausted") ∧
    runDriver oomOnlyStderr none "" "" ≠
      .err (.failure "Program terminated (no crash)") := by
  decide

/-- C7 amended: when the captured stderr contains no sanitizer-report marker
and no out-of-memory marker and the process terminated without a signal,
the pipeline fails with the NoCrashDetected hard error (and hence hands no
report to the serialization boundary). -/
theorem c7_no_crash_detected (stderr gdbBt gdbMaps : String)
    (hoom : substrIn oomMarker stderr = false)
    (hns : ∀ l ∈ splitLines stderr, rasanLine l = false) :
    runDriver stderr none gdbBt gdbMaps = .err (.failure "Program terminated (no crash)") := by
  unfold runDriver
  rw [hoom]
  simp only [Bool.false_eq_true, if_false]
  rw [firstIdx?_eq_none rasanLine (splitLines stderr) hns]
  rfl

/-- C7 witness: a concrete clean run. -/
theorem c7_witness :
    runDriver "hello" none "" "" = .err (.failure "Program terminated (no crash)") :=
  c7_no_crash_detected "hello" "" "" (by decide) (by decide)

/-- C8: whenever a run with no sanitizer-report marker and a termination
signal produces a report, that report's process memory map is the debugger's
raw map output split into lines with exactly its first 4 lines discarded,
whatever their content, and its stack trace is the backtrace blob split into
lines verbatim, order preserved. -/
theorem c8_signal_path_fields (stderr : String) (sig : Int) (gdbBt gdbMaps : String)
    (r : CrashReport)
    (hns : ∀ l ∈ splitLines stderr, rasanLine l = false)
    (hrun : runDriver stderr (some sig) gdbBt gdbMaps = .ok r) :
    r.proc_maps = (splitLines gdbMaps).drop 4 ∧ r.stacktrace = splitLines gdbBt := by
  unfold runDriver at hrun
  by_cases hoom : substrIn oomMarker stderr = true
  · rw [hoom] at hrun
    simp at hrun
  · rw [Bool.not_eq_true] at hoom
    rw [hoom] at hrun
    simp only [Bool.false_eq_true, if_false] at hrun
    rw [firstIdx?_eq_none rasanLine (splitLines stderr) hns] at hrun
    simp only [fallbackPath, signalPath] at hrun
    cases hsc : signalClass sig with
    | err e =>
      rw [hsc] at hrun
      exact Res.noConfusion hrun
    | ok cls =>
      rw [hsc] at hrun
      have hr := Res.ok.inj hrun
      rw [← hr]
      exact ⟨rfl, rfl⟩

/-- The report of the C8 witness run. -/
def c8DemoReport : CrashReport :=
  { execution_class := badInstructionEntry, asan_report := [],
    stacktrace := ["a", "b"], proc_maps := ["m1"] }

/-- C8 witness: a concrete signal-4 run with a 5-line memory map. -/
theorem c8_witness :
    c8DemoReport.proc_maps = (splitLines "h1\nh2\nh3\nh4\nm1").drop 4 ∧
    c8DemoReport.stacktrace = splitLines "a\nb" :=
  c8_signal_path_fields "x" 4 "a\nb" "h1\nh2\nh3\nh4\nm1" c8DemoReport
    (by decide) (by decide)

/-- `firstIdx?` finds nothing when the predicate fails at every index. -/
theorem firstIdx?_eq_none_idx {α : Type} (p : α → Bool) (d : α) :
    ∀ l : List α, (∀ j, j < l.length → p (l.getD j d) = false) → firstIdx? p l = none
  | [], _ => rfl
  | a :: t, h => by
    have ha : ¬(p a = true) := by
      have h0 := h 0 (by simp)
      rw [List.getD_cons_zero] at h0
      simp [h0]
    unfold firstIdx?
    rw [if_neg ha]
    rw [firstIdx?_eq_none_idx p d t (fun j hj => by
      have := h (j + 1) (by simpa using Nat.succ_lt_succ hj)
      rwa [List.getD_cons_succ] at this)]
    rfl

/-- `firstIdx?` returns exactly the least index at which the predicate
holds. -/
theorem firstIdx?_eq_some {α : Type} (p : α → Bool) (d : α) :
    ∀ (l : List α) (i : Nat), i < l.length → p (l.getD i d) = true →
      (∀ j, j < i → p (l.getD j d) = false) → firstIdx? p l = some i
  | [], i, h, _, _ => absurd h (by simp)
  | a :: t, 0, _, hp, _ => by
    rw [List.getD_cons_zero] at hp
    unfold firstIdx?
    rw [if_pos hp]
  | a :: t, i + 1, h, hp, hmin => by
    have ha : ¬(p a = true) := by
      have h0 := hmin 0 (Nat.succ_pos i)
      rw [List.getD_cons_zero] at h0
      simp [h0]
    unfold firstIdx?
    rw [if_neg ha]
    rw [firstIdx?_eq_some p d t i (by simpa using Nat.lt_of_succ_lt_succ (by simpa using h))
      (by rwa [List.getD_cons_succ] at hp)
      (fun j hj => by
        have := hmin (j + 1) (Nat.succ_lt_succ hj)
        rwa [List.getD_cons_succ] at this)]
    rfl

/-- Indexing into a dropped list is indexing into the original, shifted. -/
theorem getD_drop_add {α : Type} (d : α) :
    ∀ (l : List α) (i k : Nat), (l.drop i).getD k d = l.getD (i + k) d
  | _, 0, _ => by simp
  | [], _ + 1, _ => by simp
  | a :: t, i + 1, k => by
    rw [List.drop_succ_cons, getD_drop_add d t i k,
      show i + 1 + k = (i + k) + 1 by omega, List.getD_cons_succ]

/-- Unfolding of `extractSanStacktrace` once the frame-zero index is
known. -/
theorem extractSanStacktrace_eq_of_first (asan : List String) (i : Nat)
    (hfi : firstIdx? (fun x => substrIn " #0 " x) asan = some i) :
    extractSanStacktrace asan =
      match firstIdx? (fun v => v = "") (asan.drop i) with
      | none => .err (.failure "Couldn't find stack trace end in sanitizer's report")
      | some last => .ok (((asan.drop i).take last).map trimLine) := by
  unfold extractSanStacktrace
  rw [hfi]

/-- C6: on the sanitizer path, stack-trace extraction fails hard
(StackTraceNotFound) when no excerpt line contains the frame-zero marker;
given the first marker line at index i, it fails hard
(StackTraceEndNotFound) when no empty line follows at or after i, and when
the first empty line at or after i sits at index k it returns exactly the
lines from i up to but excluding k, each trimmed, in the original order. -/
theorem c6_sanitizer_stacktrace_extraction (asan : List String) :
    ((∀ l ∈ asan, substrIn " #0 " l = false) →
      extractSanStacktrace asan = .err (.failure "Couldn't find stack trace in sanitizer's report")) ∧
    (∀ i, i < asan.length → substrIn " #0 " (asan.getD i "") = true →
      (∀ j, j < i → substrIn " #0 " (asan.getD j "") = false) →
      ((∀ k, i ≤ k → k < asan.length → ¬(asan.getD k "" = "")) →
        extractSanStacktrace asan = .err (.failure "Couldn't find stack trace end in sanitizer's report")) ∧
      (∀ k, i ≤ k → k < asan.length → asan.getD k "" = "" →
        (∀ m, i ≤ m → m < k → ¬(asan.getD m "" = "")) →
        extractSanStacktrace asan = .ok (((asan.drop i).take (k - i)).map trimLine))) := by
  constructor
  · intro h
    unfold extractSanStacktrace
    rw [firstIdx?_eq_none _ asan h]
  · intro i hi hp hmin
    have hfi : firstIdx? (fun x => substrIn " #0 " x) asan = some i :=
      firstIdx?_eq_some _ "" asan i hi hp hmin
    constructor
    · intro hne
      rw [extractSanStacktrace_eq_of_first asan i hfi]
      have hnone : firstIdx? (fun v => v = "") (asan.drop i) = none := by
        apply firstIdx?_eq_none_idx _ ""
        intro j hj
        rw [getD_drop_add]
        rw [List.length_drop] at hj
        exact decide_eq_false (hne (i + j) (Nat.le_add_right i j) (by omega))
      rw [hnone]
    · intro k hik hk hke hkmin
      rw [extractSanStacktrace_eq_of_first asan i hfi]
      have hsome : firstIdx? (fun v => v = "") (asan.drop i) = some (k - i) := by
        apply firstIdx?_eq_some _ ""
        · rw [List.length_drop]
          omega
        · rw [getD_drop_add, show i + (k - i) = k by omega]
          exact decide_eq_true hke
        · intro j hj
          rw [getD_drop_add]
          exact decide_eq_false (hkmin (i + j) (Nat.le_add_right i j) (by omega))
      rw [hsome]

/-- The sanitizer excerpt of the C6 witness. -/
def c6DemoExcerpt : List String :=
  ["==1==ERROR: AddressSanitizer: x", " #0 in main ", " #1 in start", "", "tail"]

/-- C6 witness: on a concrete excerpt, extraction returns the trimmed slice
between the first frame-zero line and the first empty line after it. -/
theorem c6_witness :
    extractSanStacktrace c6DemoExcerpt = .ok ["#0 in main", "#1 in start"] := by
  have h := ((c6_sanitizer_stacktrace_extraction c6DemoExcerpt).2 1
    (by decide) (by decide) (by decide)).2 3 (by decide) (by decide) (by decide) (by decide)
  rw [h]
  decide

/-- `expectLit` succeeds on its own literal followed by anything. -/
theorem expectLit_self : ∀ ls cs : List Char, expectLit ls (ls ++ cs) = some cs
  | [], _ => rfl
  | l :: ls, cs => by
    show (if l = l then expectLit ls (ls ++ cs) else none) = some (cs)
    rw [if_pos rfl]
    exact expectLit_self ls cs

/-- A successful `expectLit` decomposes its input. -/
theorem expectLit_eq_append : ∀ ls cs rest : List Char,
    expectLit ls cs = some rest → cs = ls ++ rest
  | [], cs, rest, h => by
    have h' : cs = rest := Option.some.inj h
    rw [h', List.nil_append]
  | _ :: _, [], _, h => Option.noConfusion h
  | l :: ls, c :: cs, rest, h => by
    have h' : (if c = l then expectLit ls cs else none) = some rest := h
    by_cases hc : c = l
    · rw [if_pos hc] at h'
      rw [List.cons_append, ← expectLit_eq_append ls cs rest h', hc]
    · rw [if_neg hc] at h'
      exact Option.noConfusion h'

/-- `toolColon` characterised: the input starts with one of the three tool
names followed by a colon. -/
theorem toolColon_iff (cs : List Char) :
    toolColon cs = true ↔ ∃ tool suf,
      (tool = "LeakSanitizer:".toList ∨ tool = "AddressSanitizer:".toList ∨
        tool = "libFuzzer:".toList) ∧ cs = tool ++ suf := by
  constructor
  · intro h
    unfold toolColon at h
    rcases Bool.or_eq_true_iff.mp h with h' | h''
    · rcases Bool.or_eq_true_iff.mp h' with h1 | h2
      · rcases Option.isSome_iff_exists.mp h1 with ⟨rest, hr⟩
        exact ⟨_, rest, Or.inl rfl, expectLit_eq_append _ _ _ hr⟩
      · rcases Option.isSome_iff_exists.mp h2 with ⟨rest, hr⟩
        exact ⟨_, rest, Or.inr (Or.inl rfl), expectLit_eq_append _ _ _ hr⟩
    · rcases Option.isSome_iff_exists.mp h'' with ⟨rest, hr⟩
      exact ⟨_, rest, Or.inr (Or.inr rfl), expectLit_eq_append _ _ _ hr⟩
  · rintro ⟨tool, suf, htool, rfl⟩
    unfold toolColon
    rcases htool with rfl | rfl | rfl <;> (rw [expectLit_self]; simp)

/-- Any list splits into a maximal satisfying prefix and its `dropWhile`. -/
theorem dropWhile_decomp {α : Type} (p : α → Bool) :
    ∀ l : List α, ∃ ws, (∀ c ∈ ws, p c = true) ∧ l = ws ++ l.dropWhile p
  | [] => ⟨[], by simp, rfl⟩
  | c :: t => by
    rw [List.dropWhile_cons]
    by_cases hc : p c = true
    · rcases dropWhile_decomp p t with ⟨ws, hws, hd⟩
      refine ⟨c :: ws, ?_, ?_⟩
      · intro x hx
        rcases List.mem_cons.mp hx with rfl | hx
        · exact hc
        · exact hws x hx
      · rw [if_pos hc, List.cons_append, ← hd]
    · rw [if_neg hc]
      exact ⟨[], by simp, rfl⟩

/-- `dropWhile` skips over a prefix on which the predicate always holds. -/
theorem dropWhile_append_all {α : Type} (p : α → Bool) :
    ∀ ws rest : List α, (∀ c ∈ ws, p c = true) →
      (ws ++ rest).dropWhile p = rest.dropWhile p
  | [], _, _ => rfl
  | w :: ws, rest, h => by
    rw [List.cons_append, List.dropWhile_cons, if_pos (h w (List.mem_cons_self w ws))]
    exact dropWhile_append_all p ws rest (fun x hx => h x (List.mem_cons_of_mem w hx))

/-- `afterDelim` characterised: whitespace, then `ERROR: `, then a tool name
and colon, then anything. -/
theorem afterDelim_iff (cs : List Char) :
    afterDelim cs = true ↔ ∃ ws tool suf,
      (∀ c ∈ ws, isWsChar c = true) ∧
      (tool = "LeakSanitizer:".toList ∨ tool = "AddressSanitizer:".toList ∨
        tool = "libFuzzer:".toList) ∧
      cs = ws ++ ("ERROR: ".toList ++ (tool ++ suf)) := by
  constructor
  · intro h
    unfold afterDelim at h
    cases he : expectLit ("ERROR: ".toList) (cs.dropWhile isWsChar) with
    | none =>
      rw [he] at h
      exact absurd h (by simp)
    | some rest =>
      rw [he] at h
      rcases (toolColon_iff rest).mp h with ⟨tool, suf, htool, rfl⟩
      rcases dropWhile_decomp isWsChar cs with ⟨ws, hws, hcs⟩
      have hd := expectLit_eq_append _ _ _ he
      exact ⟨ws, tool, suf, hws, htool, by rw [hcs, hd]⟩
  · rintro ⟨ws, tool, suf, hws, htool, rfl⟩
    unfold afterDelim
    have hlit : "ERROR: ".toList = 'E' :: "RROR: ".toList := rfl
    have hdw : ((ws ++ ("ERROR: ".toList ++ (tool ++ suf)))).dropWhile isWsChar =
        "ERROR: ".toList ++ (tool ++ suf) := by
      rw [dropWhile_append_all isWsChar ws _ hws, hlit, List.cons_append,
        List.dropWhile_cons, if_neg (by decide)]
    rw [hdw, expectLit_self]
    exact (toolColon_iff (tool ++ suf)).mpr ⟨tool, suf, htool, rfl⟩

/-- `digitsEqEq` characterised: further digits, the closing `==`, then a
successful `afterDelim` tail. -/
theorem digitsEqEq_iff : ∀ cs : List Char, digitsEqEq cs = true ↔
    ∃ ds rest, (∀ c ∈ ds, isDigitChar c = true) ∧ afterDelim rest = true ∧
      cs = ds ++ ('=' :: '=' :: rest)
  | [] => by
    constructor
    · intro h
      exact absurd h (by decide)
    · rintro ⟨ds, rest, _, _, heq⟩
      rcases List.append_eq_nil.mp heq.symm with ⟨_, h2⟩
      exact List.noConfusion h2
  | c :: t => by
    by_cases hc : c = '='
    · subst hc
      cases t with
      | nil =>
        constructor
        · intro h
          exact absurd h (by decide)
        · rintro ⟨ds, rest, hd, ha, heq⟩
          cases ds with
          | nil => simp at heq
          | cons d ds' =>
            rw [List.cons_append] at heq
            injection heq with e1 heq
            rcases List.append_eq_nil.mp heq.symm with ⟨_, h2⟩
            exact List.noConfusion h2
      | cons c2 r2 =>
        have hL : digitsEqEq ('=' :: c2 :: r2) = (decide (c2 = '=') && afterDelim r2) := rfl
        rw [hL]
        constructor
        · intro h
          rcases Bool.and_eq_true_iff.mp h with ⟨h1, h2⟩
          have hc2 : c2 = '=' := of_decide_eq_true h1
          subst hc2
          exact ⟨[], r2, by simp, h2, rfl⟩
        · rintro ⟨ds, rest, hd, ha, heq⟩
          cases ds with
          | nil =>
            rw [List.nil_append] at heq
            injection heq with e1 heq
            injection heq with e2 heq
            subst e2
            subst heq
            simp [ha]
          | cons d ds' =>
            rw [List.cons_append] at heq
            injection heq with e1 heq
            have hdig : isDigitChar d = true := hd d (List.mem_cons_self d ds')
            rw [← e1] at hdig
            exact absurd hdig (by decide)
    · have hL : digitsEqEq (c :: t) = (isDigitChar c && digitsEqEq t) := by
        conv_lhs => rw [digitsEqEq.eq_def]
        simp [hc]
      rw [hL]
      constructor
      · intro h
        rcases Bool.and_eq_true_iff.mp h with ⟨h1, h2⟩
        rcases (digitsEqEq_iff t).mp h2 with ⟨ds, rest, hd, ha, heq⟩
        refine ⟨c :: ds, rest, ?_, ha, ?_⟩
        · intro x hx
          rcases List.mem_cons.mp hx with rfl | hx
          · exact h1
          · exact hd x hx
        · rw [List.cons_append, ← heq]
      · rintro ⟨ds, rest, hd, ha, heq⟩
        cases ds with
        | nil =>
          rw [List.nil_append] at heq
          injection heq with e1 heq
          exact absurd e1 hc
        | cons d ds' =>
          rw [List.cons_append] at heq
          injection heq with e1 heq
          refine Bool.and_eq_true_iff.mpr ⟨?_, ?_⟩
          · rw [e1]
            exact hd d (List.mem_cons_self d ds')
          · exact (digitsEqEq_iff t).mpr
              ⟨ds', rest, fun x hx => hd x (List.mem_cons_of_mem d hx), ha, heq⟩

/-- `matchHere` characterised: the whole report-start pattern at the front
of the input. -/
theorem matchHere_iff (cs : List Char) :
    matchHere cs = true ↔ ∃ ds rest, ds ≠ [] ∧ (∀ c ∈ ds, isDigitChar c = true) ∧
      afterDelim rest = true ∧ cs = '=' :: '=' :: (ds ++ ('=' :: '=' :: rest)) := by
  cases cs with
  | nil =>
    constructor
    · intro h
      exact absurd h (by decide)
    · rintro ⟨ds, rest, _, _, _, heq⟩
      exact List.noConfusion heq
  | cons c1 cs1 =>
    cases cs1 with
    | nil =>
      constructor
      · intro h
        exact Bool.noConfusion h
      · rintro ⟨ds, rest, _, _, _, heq⟩
        injection heq with e1 heq
        exact List.noConfusion heq
    | cons c2 cs2 =>
      cases cs2 with
      | nil =>
        constructor
        · intro h
          exact Bool.noConfusion h
        · rintro ⟨ds, rest, hne, _, _, heq⟩
          injection heq with e1 heq
          injection heq with e2 heq
          cases ds with
          | nil => exact absurd rfl hne
          | cons d ds' =>
            rw [List.cons_append] at heq
            exact List.noConfusion heq
      | cons c3 t =>
        have hL : matchHere (c1 :: c2 :: c3 :: t) =
            (decide (c1 = '=') && decide (c2 = '=') && isDigitChar c3 && digitsEqEq t) := rfl
        rw [hL]
        constructor
        · intro h
          rcases Bool.and_eq_true_iff.mp h with ⟨h123, h4⟩
          rcases Bool.and_eq_true_iff.mp h123 with ⟨h12, h3⟩
          rcases Bool.and_eq_true_iff.mp h12 with ⟨h1, h2⟩
          have e1 : c1 = '=' := of_decide_eq_true h1
          have e2 : c2 = '=' := of_decide_eq_true h2
          rcases (digitsEqEq_iff t).mp h4 with ⟨ds, rest, hd, ha, heq⟩
          refine ⟨c3 :: ds, rest, by simp, ?_, ha, ?_⟩
          · intro x hx
            rcases List.mem_cons.mp hx with rfl | hx
            · exact h3
            · exact hd x hx
          · rw [e1, e2, heq, List.cons_append]
        · rintro ⟨ds, rest, hne, hd, ha, heq⟩
          cases ds with
          | nil => exact absurd rfl hne
          | cons d ds' =>
            rw [List.cons_append] at heq
            injection heq with e1 heq
            injection heq with e2 heq
            injection heq with e3 heq
            refine Bool.and_eq_true_iff.mpr ⟨Bool.and_eq_true_iff.mpr
              ⟨Bool.and_eq_true_iff.mpr ⟨by rw [e1]; decide, by rw [e2]; decide⟩, ?_⟩, ?_⟩
            · rw [e3]
              exact hd d (List.mem_cons_self d ds')
            · rw [heq]
              exact (digitsEqEq_iff (ds' ++ ('=' :: '=' :: rest))).mpr
                ⟨ds', rest, fun x hx => hd x (List.mem_cons_of_mem d hx), ha, rfl⟩

/-- `hasRasan` characterised: the pattern matches at some position. -/
theorem hasRasan_iff : ∀ cs : List Char, hasRasan cs = true ↔
    ∃ pre suf, matchHere suf = true ∧ cs = pre ++ suf
  | [] => by
    constructor
    · intro h
      exact absurd h (by decide)
    · rintro ⟨pre, suf, hm, heq⟩
      rcases List.append_eq_nil.mp heq.symm with ⟨_, rfl⟩
      exact absurd hm (by decide)
  | c :: t => by
    have hL : hasRasan (c :: t) = (matchHere (c :: t) || hasRasan t) := rfl
    rw [hL]
    constructor
    · intro h
      rcases Bool.or_eq_true_iff.mp h with h | h
      · exact ⟨[], c :: t, h, rfl⟩
      · rcases (hasRasan_iff t).mp h with ⟨pre, suf, hm, heq⟩
        exact ⟨c :: pre, suf, hm, by rw [List.cons_append, ← heq]⟩
    · rintro ⟨pre, suf, hm, heq⟩
      cases pre with
      | nil =>
        rw [List.nil_append] at heq
        rw [heq]
        exact Bool.or_eq_true_iff.mpr (Or.inl hm)
      | cons p pre' =>
        rw [List.cons_append] at heq
        injection heq with e1 heq
        exact Bool.or_eq_true_iff.mpr (Or.inr ((hasRasan_iff t).mpr ⟨pre', suf, hm, heq⟩))

/-- C2 counterexample: the line with the one-digit pid 5 and whitespace
before `ERROR:` is marked by the ingester as a sanitizer-report start,
although the claimed pattern (two or more digits, `ERROR:` immediately
after the delimiter) rejects it. -/
theorem c2_one_digit_pid_counterexample :
    rasanLine "==5== ERROR: AddressSanitizer: SEGV" = true ∧
    claimLine "==5== ERROR: AddressSanitizer: SEGV" = false := by
  decide

/-- C2 amended: a line is marked as a sanitizer-report start exactly when it
contains, at some position, `==`, a pid of ONE or more digits, `==`,
optional whitespace, `ERROR: `, one of the three tool names, and a colon;
and whenever no line of the captured text is so marked (and the
out-of-memory bail-out does not fire first), the driver takes the
no-sanitizer-report fallback path. -/
theorem c2_report_start_marker :
    (∀ line : String, rasanLine line = true ↔ ∃ pre ds ws tool suf,
      ds ≠ [] ∧ (∀ c ∈ ds, isDigitChar c = true) ∧ (∀ c ∈ ws, isWsChar c = true) ∧
      (tool = "LeakSanitizer:".toList ∨ tool = "AddressSanitizer:".toList ∨
        tool = "libFuzzer:".toList) ∧
      line.toList =
        pre ++ ('=' :: '=' :: (ds ++ ('=' :: '=' ::
          (ws ++ ("ERROR: ".toList ++ (tool ++ suf))))))) ∧
    (∀ stderr sig gdbBt gdbMaps, substrIn oomMarker stderr = false →
      (∀ l ∈ splitLines stderr, rasanLine l = false) →
      runDriver stderr sig gdbBt gdbMaps = fallbackPath sig gdbBt gdbMaps) := by
  constructor
  · intro line
    unfold rasanLine
    rw [hasRasan_iff]
    constructor
    · rintro ⟨pre, suf, hm, heq⟩
      rcases (matchHere_iff suf).mp hm with ⟨ds, rest, hne, hd, ha, rfl⟩
      rcases (afterDelim_iff rest).mp ha with ⟨ws, tool, suf', hws, htool, rfl⟩
      exact ⟨pre, ds, ws, tool, suf', hne, hd, hws, htool, heq⟩
    · rintro ⟨pre, ds, ws, tool, suf, hne, hd, hws, htool, heq⟩
      exact ⟨pre, _, (matchHere_iff _).mpr
        ⟨ds, ws ++ ("ERROR: ".toList ++ (tool ++ suf)), hne, hd,
          (afterDelim_iff _).mpr ⟨ws, tool, suf, hws, htool, rfl⟩, rfl⟩, heq⟩
  · intro stderr sig gdbBt gdbMaps hoom hns
    unfold runDriver
    rw [hoom]
    simp only [Bool.false_eq_true, if_false]
    rw [firstIdx?_eq_none rasanLine (splitLines stderr) hns]

/-- C2 witness: a canonical report-start line, via the amended
characterisation. -/
theorem c2_witness :
    rasanLine "==1234==ERROR: AddressSanitizer: heap-buffer-overflow" = true :=
  (c2_report_start_marker.1 "==1234==ERROR: AddressSanitizer: heap-buffer-overflow").mpr
    ⟨[], ['1', '2', '3', '4'], [], "AddressSanitizer:".toList,
      " heap-buffer-overflow".toList, by decide, by decide, by decide,
      Or.inr (Or.inl rfl), by decide⟩

/-- C5: for names outside the three special cases, `san_find` with a READ
(resp. WRITE) qualifier first looks up the `(read)` (resp. `(write)`)
suffixed name and falls back to the bare name when that fails; with any
other qualifier only the bare name is looked up; and a failed result means
the bare-name lookup itself failed (every attempted lookup failed). -/
theorem c5_qualified_then_bare_lookup (name : String)
    (h1 : ¬(name = "SEGV")) (h2 : ¬(name = "stack-overflow")) (h3 : ¬(name = "deadly"))
    (nn : Bool) :
    (∀ c, ExecutionClass.find (name ++ "(read)") = .ok c →
      ExecutionClass.san_find name (some "READ") nn = .ok c) ∧
    (∀ e, ExecutionClass.find (name ++ "(read)") = .err e →
      ExecutionClass.san_find name (some "READ") nn = ExecutionClass.find name) ∧
    (∀ c, ExecutionClass.find (name ++ "(write)") = .ok c →
      ExecutionClass.san_find name (some "WRITE") nn = .ok c) ∧
    (∀ e, ExecutionClass.find (name ++ "(write)") = .err e →
      ExecutionClass.san_find name (some "WRITE") nn = ExecutionClass.find name) ∧
    (∀ rw : Option String, ¬(rw.getD "UNDEF" = "READ") → ¬(rw.getD "UNDEF" = "WRITE") →
      ExecutionClass.san_find name rw nn = ExecutionClass.find name) ∧
    (∀ rw e, ExecutionClass.san_find name rw nn = .err e →
      ExecutionClass.find name = .err e) := by
  have key : ∀ rw : Option String, ExecutionClass.san_find name rw nn =
      (match ExecutionClass.find (if rw.getD "UNDEF" = "READ" then name ++ "(read)"
        else if rw.getD "UNDEF" = "WRITE" then name ++ "(write)" else name) with
       | .ok cls => .ok cls
       | .err _ => ExecutionClass.find name) := by
    intro rw
    unfold ExecutionClass.san_find
    rw [if_neg h1, if_neg h2, if_neg h3]
  have hread : (if (some "READ" : Option String).getD "UNDEF" = "READ" then name ++ "(read)"
      else if (some "READ" : Option String).getD "UNDEF" = "WRITE" then name ++ "(write)"
      else name) = name ++ "(read)" := by simp
  have hwrite : (if (some "WRITE" : Option String).getD "UNDEF" = "READ" then name ++ "(read)"
      else if (some "WRITE" : Option String).getD "UNDEF" = "WRITE" then name ++ "(write)"
      else name) = name ++ "(write)" := by simp
  refine ⟨?_, ?_, ?_, ?_, ?_, ?_⟩
  · intro c hc
    rw [key (some "READ"), hread, hc]
  · intro e he
    rw [key (some "READ"), hread, he]
  · intro c hc
    rw [key (some "WRITE"), hwrite, hc]
  · intro e he
    rw [key (some "WRITE"), hwrite, he]
  · intro rw hr hw
    rw [key rw, if_neg hr, if_neg hw]
    cases hfn : ExecutionClass.find name with
    | ok c => rfl
    | err e => rfl
  · intro rw e h
    rw [key rw] at h
    cases hfp : ExecutionClass.find (if rw.getD "UNDEF" = "READ" then name ++ "(read)"
        else if rw.getD "UNDEF" = "WRITE" then name ++ "(write)" else name) with
    | ok c =>
      rw [hfp] at h
      exact Res.noConfusion h
    | err e' =>
      rw [hfp] at h
      exact h

/-- C5 witness: the qualified lookup wins for heap-buffer-overflow with
WRITE access. -/
theorem c5_witness :
    ExecutionClass.san_find "heap-buffer-overflow" (some "WRITE") false = .ok hboWriteEntry :=
  (c5_qualified_then_bare_lookup "heap-buffer-overflow" (by decide) (by decide) (by decide)
    false).2.2.1 hboWriteEntry (by decide)
